import Mathlib

/-!
Verification of the MySQL reconciliation operations from `pyinfra/modules/mysql.py`.

The module compares desired state (databases, users, grants) against fact
snapshots of the live host and yields the SQL commands needed to reconcile
the two.  We embed the three state-bearing operations (`user`, `database`,
`permission`) as pure Lean functions over explicit snapshot arguments:

* the fact snapshots (`host.fact.mysql_databases`, `host.fact.mysql_users`,
  `host.fact.mysql_user_grants`) become explicit parameters;
* Python dict indexing (`user_grants[database_table]`), which raises
  `KeyError` on an absent key, becomes an `Except`-raising lookup, so each
  operation returns `Except String (List MysqlCommand)`;
* the generator (`yield`) becomes the returned command list, in yield order;
* Python truthiness of optional-string arguments (`if password:` and the
  like) becomes `pyTruthy`;
* a `permissions` argument that Python accepts as either a single string or
  a list is embedded as the normalized list (the single string `s` is the
  one-element list `[s]`).
-/

set_option autoImplicit false

namespace PyinfraMysql

/-- Connection parameters (`mysql_user`, `mysql_password`, `mysql_host`,
`mysql_port`) for speaking to MySQL via the `mysql` CLI; every operation
accepts them and they all default to `None` in the source. -/
structure Conn where
  mysql_user : Option String := none
  mysql_password : Option String := none
  mysql_host : Option String := none
  mysql_port : Option String := none
  deriving DecidableEq, Repr

/-- The all-`None` connection parameters, the Python defaults. -/
def noConn : Conn := {}

/-- Modelled from the spec: the Command Builder collaborator
(`make_execute_mysql_command`, defined in `pyinfra/facts/mysql.py`, which is
not under `src/`) is "pure string formatting" that wraps one SQL statement
together with the connection parameters into a shell invocation.  We keep
the SQL text and the four connection parameters as separate fields instead
of flattening them into one shell string; nothing is lost because the
collaborator is injective in these inputs. -/
structure MysqlCommand where
  sql : String
  user : Option String
  password : Option String
  host : Option String
  port : Option String
  deriving DecidableEq, Repr

/-- Wrap one SQL statement with connection parameters
(see `make_execute_mysql_command` usage throughout `mysql.py`). -/
def make_execute_mysql_command (sqlText : String) (conn : Conn) : MysqlCommand :=
  { sql := sqlText
    user := conn.mysql_user
    password := conn.mysql_password
    host := conn.mysql_host
    port := conn.mysql_port }

/-- One value of the grant snapshot: the fact's `{'permissions': ...}` dict
entry for one `"database.table"` key. -/
structure GrantEntry where
  permissions : List String
  deriving DecidableEq, Repr

/-- The Grant Snapshot: the fact `mysql_user_grants` result, a mapping from
`"database.table"` keys to grant entries, embedded as an association list. -/
abbrev GrantSnapshot := List (String × GrantEntry)

/-- Python `user_grants[key]` / `key in user_grants` lookup on the snapshot
dict (first binding wins, as in a dict where keys are unique). -/
def lookupGrant : GrantSnapshot → String → Option GrantEntry
  | [], _ => none
  | kv :: rest, k => if kv.1 = k then some kv.2 else lookupGrant rest k

/-- Python `key in user_grants`. -/
def containsKey (g : GrantSnapshot) (k : String) : Bool :=
  (lookupGrant g k).isSome

/-- Python truthiness of an optional string argument (`if password:` etc.):
`None` and the empty string are falsy. -/
def pyTruthy : Option String → Bool
  | none => false
  | some s => !(s == "")

/-- The normalization applied to each host-reported permission token
(mysql.py line 237): `'ALL' if permission == 'ALL PRIVILEGES' else permission`. -/
def normPerm (p : String) : String :=
  if p = "ALL PRIVILEGES" then "ALL" else p

/-- Backtick-quoting of a non-`*` database or table scope
(mysql.py lines 223-227). -/
def quoteIdent (s : String) : String :=
  if s = "*" then s else "`" ++ s ++ "`"

/-- Python `str.replace` specialized to the call on mysql.py line 271:
every backtick (char 96) is replaced by backslash-backtick. -/
def escChars : List Char → List Char
  | [] => []
  | c :: rest =>
    if c = Char.ofNat 96 then Char.ofNat 92 :: Char.ofNat 96 :: escChars rest
    else c :: escChars rest

/-- `command.replace(chr(96), chr(92) + chr(96))` from mysql.py line 271. -/
def escapeBackticks (s : String) : String :=
  String.mk (escChars s.data)

/-- The GRANT/REVOKE statement text built on mysql.py lines 262-271:
`'{action} {permissions} ON {database}.{table} {target} "{user}"@"{user_hostname}" '`
(note the trailing space), with backticks escaped afterwards. -/
def actionCommand (action target : String) (permissions : List String)
    (database table user user_hostname : String) : String :=
  escapeBackticks
    (action ++ " " ++ String.intercalate ", " permissions
      ++ " ON " ++ database ++ "." ++ table
      ++ " " ++ target
      ++ " \"" ++ user ++ "\"@\"" ++ user_hostname ++ "\" ")

/-- The `permission` operation (mysql.py lines 193-288).  Parameters keep the
source's names and defaults (`user_hostname='localhost'`, `database='*'`,
`table='*'`, `present=True`, `flush=True`); the fact snapshot `user_grants`
is the final explicit parameter.  Python dict indexing on line 238 raises
`KeyError` when the computed key is absent, hence the `Except`. -/
def permission (user : String) (permissions : List String)
    (user_hostname : String) (database table : String)
    (present flush : Bool) (conn : Conn) (user_grants : GrantSnapshot) :
    Except String (List MysqlCommand) :=
  let database := quoteIdent database
  let table := quoteIdent table
  let database_table := database ++ "." ++ table
  match lookupGrant user_grants database_table with
  | none => Except.error ("KeyError: " ++ database_table)
  | some entry =>
    let existing_permissions := entry.permissions.map normPerm
    let has_permissions :=
      containsKey user_grants database_table
        && permissions.all (fun p => decide (p ∈ existing_permissions))
    if !has_permissions && present then
      Except.ok
        (make_execute_mysql_command
            (actionCommand "GRANT" "TO" permissions database table user user_hostname) conn
          :: (if flush then [make_execute_mysql_command "FLUSH PRIVILEGES" conn] else []))
    else if has_permissions && !present then
      Except.ok
        (make_execute_mysql_command
            (actionCommand "REVOKE" "FROM" permissions database table user user_hostname) conn
          :: (if flush then [make_execute_mysql_command "FLUSH PRIVILEGES" conn] else []))
    else
      Except.ok []

/-- The subset check of mysql.py lines 241-247, with the key known present. -/
def satisfied (permissions : List String) (entry : GrantEntry) : Bool :=
  permissions.all (fun p => decide (p ∈ entry.permissions.map normPerm))

/-- The optional trailing FLUSH PRIVILEGES command (mysql.py lines 281-288). -/
def flushTail (flush : Bool) (conn : Conn) : List MysqlCommand :=
  if flush then [make_execute_mysql_command "FLUSH PRIVILEGES" conn] else []

/-- Whether a GRANT or REVOKE action fires for these arguments against this
snapshot (mysql.py lines 249-259); `false` also covers the absent-key case,
in which the operation raises before deciding. -/
def actionFires (permissions : List String) (database table : String)
    (present : Bool) (user_grants : GrantSnapshot) : Bool :=
  match lookupGrant user_grants (quoteIdent database ++ "." ++ quoteIdent table) with
  | none => false
  | some entry =>
    (!satisfied permissions entry && present) || (satisfied permissions entry && !present)

/-- The `user` operation (mysql.py lines 44-115).  Parameters keep the
source's names and defaults (`present=True`, `user_hostname='localhost'`,
`password=None`, `permissions=None`); the fact snapshots (`mysql_users` and,
for the delegated `permission` call, `mysql_user_grants`) are the final
explicit parameters.  A `permissions=None` argument is the empty list.
The delegation on lines 110-115 forwards the four connection parameters but
not `user_hostname`, so `permission` runs with its own defaults
(`'localhost'`, `'*'`, `'*'`, `present=True`, `flush=True`). -/
def user (name : String) (present : Bool) (user_hostname : String)
    (password : Option String) (permissions : List String) (conn : Conn)
    (current_users : List String) (user_grants : GrantSnapshot) :
    Except String (List MysqlCommand) :=
  let user_host := name ++ "@" ++ user_hostname
  let is_present := decide (user_host ∈ current_users)
  if !present then
    Except.ok
      (if is_present then
        [make_execute_mysql_command
          ("DROP USER \"" ++ name ++ "\"@\"" ++ user_hostname ++ "\"") conn]
      else [])
  else
    let createCmds :=
      if present && !is_present then
        let sql_bits :=
          ["CREATE USER \"" ++ name ++ "\"@\"" ++ user_hostname ++ "\""]
            ++ (if pyTruthy password then
                  ["IDENTIFIED BY \"" ++ password.getD "" ++ "\""]
                else [])
        [make_execute_mysql_command (String.intercalate " " sql_bits) conn]
      else []
    if permissions.isEmpty then
      Except.ok createCmds
    else
      match permission name permissions "localhost" "*" "*" true true conn user_grants with
      | Except.error e => Except.error e
      | Except.ok permCmds => Except.ok (createCmds ++ permCmds)

/-- The `database` operation (mysql.py lines 118-190).  Parameters keep the
source's names and defaults (`present=True`, `collate=None`, `charset=None`,
`user=None`, `user_hostname='localhost'`, `user_permissions='ALL'`); the
fact snapshots are the final explicit parameters.  The delegation on lines
184-190 passes `user_hostname`, `user_permissions` and `database=name` but
none of the four connection parameters, so the delegated `permission` call
runs with the all-`None` connection `noConn`. -/
def database (name : String) (present : Bool) (collate charset : Option String)
    (user : Option String) (user_hostname : String)
    (user_permissions : List String) (conn : Conn)
    (current_databases : List String) (user_grants : GrantSnapshot) :
    Except String (List MysqlCommand) :=
  let is_present := decide (name ∈ current_databases)
  if !present then
    Except.ok
      (if is_present then
        [make_execute_mysql_command ("DROP DATABASE " ++ name) conn]
      else [])
  else
    let createCmds :=
      if present && !is_present then
        let sql_bits :=
          ["CREATE DATABASE " ++ name]
            ++ (if pyTruthy collate then ["COLLATE " ++ collate.getD ""] else [])
            ++ (if pyTruthy charset then ["CHARSET " ++ charset.getD ""] else [])
        [make_execute_mysql_command (String.intercalate " " sql_bits) conn]
      else []
    if pyTruthy user && !user_permissions.isEmpty then
      match permission (user.getD "") user_permissions user_hostname name "*"
          true true noConn user_grants with
      | Except.error e => Except.error e
      | Except.ok permCmds => Except.ok (createCmds ++ permCmds)
    else
      Except.ok createCmds

/-- Replace the entry stored under key `k` (when present) by `e`. -/
def setGrant (g : GrantSnapshot) (k : String) (e : GrantEntry) : GrantSnapshot :=
  g.map (fun kv => if kv.1 = k then (k, e) else kv)

/-- Modelled from the spec: the Fact Provider's grant snapshot after the
host executes the commands of one `permission` run (§6, §8 "updated
snapshot (reflecting the first call's effect)").  A GRANT adds the granted
tokens to the scoped entry; a REVOKE removes every existing token that
matches a revoked token up to the documented ALL-PRIVILEGES normalization
(`REVOKE ALL` removes a host-reported `ALL PRIVILEGES` grant);
`FLUSH PRIVILEGES` does not change the grant table.  When the run raised
(absent key) no command was executed, so the snapshot is unchanged. -/
def applyPermission (permissions : List String) (database table : String)
    (present : Bool) (user_grants : GrantSnapshot) : GrantSnapshot :=
  let database_table := quoteIdent database ++ "." ++ quoteIdent table
  match lookupGrant user_grants database_table with
  | none => user_grants
  | some entry =>
    let existing_permissions := entry.permissions.map normPerm
    let has_permissions :=
      containsKey user_grants database_table
        && permissions.all (fun p => decide (p ∈ existing_permissions))
    if !has_permissions && present then
      setGrant user_grants database_table ⟨permissions ++ entry.permissions⟩
    else if has_permissions && !present then
      setGrant user_grants database_table
        ⟨entry.permissions.filter
          (fun q => !decide (normPerm q ∈ permissions.map normPerm))⟩
    else user_grants

/-- Modelled from the spec: the `mysql_users` and `mysql_user_grants`
snapshots after the host executes the commands of one `user` run:
`DROP USER` removes the identity, `CREATE USER` adds it, and the delegated
grant (always `present=True`, global `*.*` scope, hostname `localhost`)
updates the grant snapshot via `applyPermission`. -/
def applyUser (name : String) (present : Bool) (user_hostname : String)
    (permissions : List String) (current_users : List String)
    (user_grants : GrantSnapshot) : List String × GrantSnapshot :=
  let user_host := name ++ "@" ++ user_hostname
  if !present then
    (current_users.filter (fun u => !decide (u = user_host)), user_grants)
  else
    let users' :=
      if decide (user_host ∈ current_users) then current_users
      else user_host :: current_users
    let grants' :=
      if permissions.isEmpty then user_grants
      else applyPermission permissions "*" "*" true user_grants
    (users', grants')

/-- Modelled from the spec: the `mysql_databases` and `mysql_user_grants`
snapshots after the host executes the commands of one `database` run:
`DROP DATABASE` removes the name, `CREATE DATABASE` adds it, and the
delegated grant (scope `name`.`*`, `present=True`) updates the grant
snapshot via `applyPermission`. -/
def applyDatabase (name : String) (present : Bool) (user : Option String)
    (user_permissions : List String) (current_databases : List String)
    (user_grants : GrantSnapshot) : List String × GrantSnapshot :=
  if !present then
    (current_databases.filter (fun d => !decide (d = name)), user_grants)
  else
    let dbs' :=
      if decide (name ∈ current_databases) then current_databases
      else name :: current_databases
    let grants' :=
      if pyTruthy user && !user_permissions.isEmpty then
        applyPermission user_permissions name "*" true user_grants
      else user_grants
    (dbs', grants')

theorem containsKey_of_lookup {g : GrantSnapshot} {k : String} {e : GrantEntry}
    (h : lookupGrant g k = some e) : containsKey g k = true := by
  simp [containsKey, h]

theorem permission_eq_of_lookup {g : GrantSnapshot} {entry : GrantEntry}
    (u : String) (perms : List String) (uh db tbl : String)
    (present flush : Bool) (conn : Conn)
    (hl : lookupGrant g (quoteIdent db ++ "." ++ quoteIdent tbl) = some entry) :
    permission u perms uh db tbl present flush conn g =
      Except.ok
        (if !satisfied perms entry && present then
          make_execute_mysql_command
            (actionCommand "GRANT" "TO" perms (quoteIdent db) (quoteIdent tbl) u uh) conn
            :: flushTail flush conn
        else if satisfied perms entry && !present then
          make_execute_mysql_command
            (actionCommand "REVOKE" "FROM" perms (quoteIdent db) (quoteIdent tbl) u uh) conn
            :: flushTail flush conn
        else []) := by
  simp only [permission, hl, containsKey_of_lookup hl, satisfied, flushTail, Bool.true_and]
  split <;> first | rfl | (split <;> rfl)

theorem lookupGrant_setGrant {g : GrantSnapshot} {k : String} {e0 : GrantEntry}
    (e : GrantEntry) (h : lookupGrant g k = some e0) :
    lookupGrant (setGrant g k e) k = some e := by
  induction g with
  | nil => simp [lookupGrant] at h
  | cons kv rest ih =>
    by_cases hk : kv.1 = k
    · simp [setGrant, lookupGrant, hk]
    · simp only [lookupGrant, hk, if_false] at h
      simpa [setGrant, lookupGrant, hk] using ih h

theorem lookup_of_permission_ok {g : GrantSnapshot} {out : List MysqlCommand}
    {u : String} {perms : List String} {uh db tbl : String}
    {present flush : Bool} {conn : Conn}
    (h : permission u perms uh db tbl present flush conn g = Except.ok out) :
    ∃ e, lookupGrant g (quoteIdent db ++ "." ++ quoteIdent tbl) = some e := by
  rcases he : lookupGrant g (quoteIdent db ++ "." ++ quoteIdent tbl) with _ | e
  · exfalso
    simp [permission, he] at h
  · exact ⟨e, rfl⟩

theorem escChars_append (l1 l2 : List Char) :
    escChars (l1 ++ l2) = escChars l1 ++ escChars l2 := by
  induction l1 with
  | nil => rfl
  | cons c rest ih => by_cases hc : c = Char.ofNat 96 <;> simp [escChars, hc, ih]

theorem data_actionCommand (action target : String) (perms : List String)
    (db tbl u uh : String) :
    (actionCommand action target perms db tbl u uh).data =
      escChars action.data ++ escChars (" " ++ String.intercalate ", " perms
        ++ " ON " ++ db ++ "." ++ tbl ++ " " ++ target
        ++ " \"" ++ u ++ "\"@\"" ++ uh ++ "\" ").data := by
  simp only [actionCommand, escapeBackticks]
  rw [show (action ++ " " ++ String.intercalate ", " perms
        ++ " ON " ++ db ++ "." ++ tbl ++ " " ++ target
        ++ " \"" ++ u ++ "\"@\"" ++ uh ++ "\" ")
      = action ++ (" " ++ String.intercalate ", " perms
        ++ " ON " ++ db ++ "." ++ tbl ++ " " ++ target
        ++ " \"" ++ u ++ "\"@\"" ++ uh ++ "\" ") from by
    simp [String.ext_iff, String.data_append, List.append_assoc]]
  simp [String.data_append, escChars_append]

theorem actionCommand_ne_flush {action : String}
    (ha : action = "GRANT" ∨ action = "REVOKE") (target : String)
    (perms : List String) (db tbl u uh : String) :
    actionCommand action target perms db tbl u uh ≠ "FLUSH PRIVILEGES" := by
  intro heq
  have hd := congrArg String.data heq
  rw [data_actionCommand] at hd
  rcases ha with ha | ha <;> subst ha
  · rw [show escChars "GRANT".data = ['G', 'R', 'A', 'N', 'T'] from by decide,
      show "FLUSH PRIVILEGES".data
        = ['F', 'L', 'U', 'S', 'H', ' ', 'P', 'R', 'I', 'V', 'I',
           'L', 'E', 'G', 'E', 'S'] from by decide] at hd
    simp at hd
  · rw [show escChars "REVOKE".data = ['R', 'E', 'V', 'O', 'K', 'E'] from by decide,
      show "FLUSH PRIVILEGES".data
        = ['F', 'L', 'U', 'S', 'H', ' ', 'P', 'R', 'I', 'V', 'I',
           'L', 'E', 'G', 'E', 'S'] from by decide] at hd
    simp at hd

theorem normPerm_eq_self {p : String} (hp : p ≠ "ALL PRIVILEGES") :
    normPerm p = p := by
  simp [normPerm, hp]

theorem satisfied_append_self (perms eps : List String)
    (hp : ∀ p ∈ perms, p ≠ "ALL PRIVILEGES") :
    satisfied perms ⟨perms ++ eps⟩ = true := by
  simp only [satisfied, List.all_eq_true, decide_eq_true_eq]
  intro p hpmem
  simp only [List.map_append, List.mem_append, List.mem_map]
  exact Or.inl ⟨p, hpmem, normPerm_eq_self (hp p hpmem)⟩

theorem satisfied_filter_eq_false (perms eps : List String)
    (hne : perms ≠ []) (hp : ∀ p ∈ perms, p ≠ "ALL PRIVILEGES") :
    satisfied perms
      ⟨eps.filter (fun q => !decide (normPerm q ∈ perms.map normPerm))⟩ = false := by
  rcases perms with _ | ⟨p0, rest⟩
  · exact absurd rfl hne
  rw [Bool.eq_false_iff]
  intro hall
  simp only [satisfied, List.all_eq_true, decide_eq_true_eq] at hall
  have h0 := hall p0 (by simp)
  simp only [List.mem_map, List.mem_filter, Bool.not_eq_eq_eq_not, Bool.not_true,
    decide_eq_false_iff_not] at h0
  rcases h0 with ⟨q, ⟨_, hqnot⟩, hq0⟩
  exact hqnot (by
    rw [hq0]
    exact ⟨p0, List.mem_cons_self p0 rest,
      normPerm_eq_self (hp p0 (List.mem_cons_self p0 rest))⟩)

theorem applyPermission_eq_of_lookup {g : GrantSnapshot} {entry : GrantEntry}
    (perms : List String) (db tbl : String) (present : Bool)
    (hl : lookupGrant g (quoteIdent db ++ "." ++ quoteIdent tbl) = some entry) :
    applyPermission perms db tbl present g =
      if !satisfied perms entry && present then
        setGrant g (quoteIdent db ++ "." ++ quoteIdent tbl) ⟨perms ++ entry.permissions⟩
      else if satisfied perms entry && !present then
        setGrant g (quoteIdent db ++ "." ++ quoteIdent tbl)
          ⟨entry.permissions.filter
            (fun q => !decide (normPerm q ∈ perms.map normPerm))⟩
      else g := by
  simp only [applyPermission, hl, containsKey_of_lookup hl, satisfied, Bool.true_and]

theorem permission_grant_idem {g : GrantSnapshot} {entry : GrantEntry}
    (u : String) (perms : List String) (uh db tbl : String) (flush : Bool)
    (conn : Conn)
    (hl : lookupGrant g (quoteIdent db ++ "." ++ quoteIdent tbl) = some entry)
    (hp : ∀ p ∈ perms, p ≠ "ALL PRIVILEGES") :
    permission u perms uh db tbl true flush conn
      (applyPermission perms db tbl true g) = Except.ok [] := by
  rw [applyPermission_eq_of_lookup perms db tbl true hl]
  cases hsat : satisfied perms entry
  · rw [if_pos (by simp [hsat])]
    have hl' := lookupGrant_setGrant
      (⟨perms ++ entry.permissions⟩ : GrantEntry) hl
    rw [permission_eq_of_lookup u perms uh db tbl true flush conn hl']
    simp [satisfied_append_self perms entry.permissions hp]
  · rw [if_neg (by simp [hsat]), if_neg (by simp)]
    rw [permission_eq_of_lookup u perms uh db tbl true flush conn hl]
    simp [hsat]

theorem permission_revoke_idem {g : GrantSnapshot} {entry : GrantEntry}
    (u : String) (perms : List String) (uh db tbl : String) (flush : Bool)
    (conn : Conn)
    (hl : lookupGrant g (quoteIdent db ++ "." ++ quoteIdent tbl) = some entry)
    (hne : perms ≠ []) (hp : ∀ p ∈ perms, p ≠ "ALL PRIVILEGES") :
    permission u perms uh db tbl false flush conn
      (applyPermission perms db tbl false g) = Except.ok [] := by
  rw [applyPermission_eq_of_lookup perms db tbl false hl]
  cases hsat : satisfied perms entry
  · rw [if_neg (by simp), if_neg (by simp [hsat])]
    rw [permission_eq_of_lookup u perms uh db tbl false flush conn hl]
    simp [hsat]
  · rw [if_neg (by simp), if_pos (by simp [hsat])]
    have hl' := lookupGrant_setGrant
      (⟨entry.permissions.filter
        (fun q => !decide (normPerm q ∈ perms.map normPerm))⟩ : GrantEntry) hl
    rw [permission_eq_of_lookup u perms uh db tbl false flush conn hl',
      if_neg (by simp),
      if_neg (by rw [satisfied_filter_eq_false perms entry.permissions hne hp]; simp)]

theorem isEmpty_false_of_ne {α : Type} {l : List α} (h : l ≠ []) :
    l.isEmpty = false := by
  cases l with
  | nil => exact absurd rfl h
  | cons a t => rfl

theorem applyUser_fst_mem (name uh : String) (perms : List String)
    (users : List String) (g : GrantSnapshot) :
    (name ++ "@" ++ uh) ∈ (applyUser name true uh perms users g).1 := by
  by_cases h : (name ++ "@" ++ uh) ∈ users <;> simp [applyUser, h]

theorem applyUser_snd (name uh : String) (perms : List String)
    (users : List String) (g : GrantSnapshot) :
    (applyUser name true uh perms users g).2 =
      if perms.isEmpty then g else applyPermission perms "*" "*" true g := by
  simp [applyUser]

theorem user_run_ok_nil (name uh : String) (pw : Option String)
    (perms : List String) (conn : Conn) (users : List String) (g : GrantSnapshot)
    (hmem : (name ++ "@" ++ uh) ∈ users)
    (hdel : perms = [] ∨
      permission name perms "localhost" "*" "*" true true conn g = Except.ok []) :
    user name true uh pw perms conn users g = Except.ok [] := by
  by_cases hpnil : perms = []
  · subst hpnil
    simp [user, hmem]
  · rcases hdel with h | h
    · exact absurd h hpnil
    · simp [user, hmem, isEmpty_false_of_ne hpnil, h]

theorem user_idem (name : String) (present : Bool) (uh : String)
    (pw : Option String) (perms : List String) (conn : Conn)
    (users : List String) (g : GrantSnapshot) (out : List MysqlCommand)
    (hp : ∀ p ∈ perms, p ≠ "ALL PRIVILEGES")
    (hok : user name present uh pw perms conn users g = Except.ok out) :
    user name present uh pw perms conn
      (applyUser name present uh perms users g).1
      (applyUser name present uh perms users g).2 = Except.ok [] := by
  cases present
  · simp [user, applyUser, List.mem_filter]
  · have hmem := applyUser_fst_mem name uh perms users g
    by_cases hpnil : perms = []
    · exact user_run_ok_nil name uh pw perms conn _ _ hmem (Or.inl hpnil)
    · obtain ⟨l, hd⟩ : ∃ l,
          permission name perms "localhost" "*" "*" true true conn g = Except.ok l := by
        cases hd : permission name perms "localhost" "*" "*" true true conn g with
        | error e =>
          exfalso
          simp [user, isEmpty_false_of_ne hpnil, hd] at hok
        | ok l => exact ⟨l, rfl⟩
      obtain ⟨entry, hl⟩ := lookup_of_permission_ok hd
      have hidem := permission_grant_idem name perms "localhost" "*" "*" true conn hl hp
      have h2 : (applyUser name true uh perms users g).2 =
          applyPermission perms "*" "*" true g := by
        rw [applyUser_snd]
        simp [isEmpty_false_of_ne hpnil]
      exact user_run_ok_nil name uh pw perms conn _ _ hmem (Or.inr (h2.symm ▸ hidem))

theorem applyDatabase_fst_mem (name : String) (u : Option String)
    (UP : List String) (dbs : List String) (g : GrantSnapshot) :
    name ∈ (applyDatabase name true u UP dbs g).1 := by
  by_cases h : name ∈ dbs <;> simp [applyDatabase, h]

theorem database_run_ok_nil (name : String) (collate charset : Option String)
    (u : Option String) (uh : String) (UP : List String) (conn : Conn)
    (dbs : List String) (g : GrantSnapshot)
    (hmem : name ∈ dbs)
    (hdel : (pyTruthy u && !UP.isEmpty) = false ∨
      permission (u.getD "") UP uh name "*" true true noConn g = Except.ok []) :
    database name true collate charset u uh UP conn dbs g = Except.ok [] := by
  rcases hdel with h | h
  · simp [database, hmem, h]
  · cases hcb : (pyTruthy u && !UP.isEmpty) <;> simp [database, hmem, hcb, h]

theorem database_idem (name : String) (present : Bool)
    (collate charset : Option String) (u : Option String) (uh : String)
    (UP : List String) (conn : Conn) (dbs : List String) (g : GrantSnapshot)
    (out : List MysqlCommand)
    (hp : ∀ p ∈ UP, p ≠ "ALL PRIVILEGES")
    (hok : database name present collate charset u uh UP conn dbs g = Except.ok out) :
    database name present collate charset u uh UP conn
      (applyDatabase name present u UP dbs g).1
      (applyDatabase name present u UP dbs g).2 = Except.ok [] := by
  cases present
  · simp [database, applyDatabase, List.mem_filter]
  · have hmem := applyDatabase_fst_mem name u UP dbs g
    cases hcb : (pyTruthy u && !UP.isEmpty)
    · exact database_run_ok_nil name collate charset u uh UP conn _ _ hmem (Or.inl hcb)
    · obtain ⟨l, hd⟩ : ∃ l,
          permission (u.getD "") UP uh name "*" true true noConn g = Except.ok l := by
        cases hd : permission (u.getD "") UP uh name "*" true true noConn g with
        | error e =>
          exfalso
          simp [database, hcb, hd] at hok
        | ok l => exact ⟨l, rfl⟩
      obtain ⟨entry, hl⟩ := lookup_of_permission_ok hd
      have hidem := permission_grant_idem (u.getD "") UP uh name "*" true noConn hl hp
      have h2 : (applyDatabase name true u UP dbs g).2 =
          applyPermission UP name "*" true g := by
        simp [applyDatabase, hcb]
      exact database_run_ok_nil name collate charset u uh UP conn _ _ hmem
        (Or.inr (h2.symm ▸ hidem))

theorem permission_idem (u : String) (perms : List String) (uh db tbl : String)
    (present flush : Bool) (conn : Conn) (g : GrantSnapshot)
    (out : List MysqlCommand)
    (hne : perms ≠ []) (hp : ∀ p ∈ perms, p ≠ "ALL PRIVILEGES")
    (hok : permission u perms uh db tbl present flush conn g = Except.ok out) :
    permission u perms uh db tbl present flush conn
      (applyPermission perms db tbl present g) = Except.ok [] := by
  obtain ⟨entry, hl⟩ := lookup_of_permission_ok hok
  cases present
  · exact permission_revoke_idem u perms uh db tbl flush conn hl hne hp
  · exact permission_grant_idem u perms uh db tbl flush conn hl hp

/-- C1 (code bug): on a grant snapshot in which the computed
`"database.table"` key is absent, the `permission` operation raises
`KeyError` at the dict indexing of mysql.py line 238 before the key-exists
conjunct on line 242 is consulted, instead of treating `has_permissions`
as false as the spec describes. -/
theorem permission_absent_key_raises :
    permission "bob" ["SELECT"] "localhost" "*" "*" true true noConn [] =
      Except.error "KeyError: *.*" := rfl

/-- C2 counterexample: over the snapshot that reports exactly
`"ALL PRIVILEGES"` for the global scope, the desired token `"ALL"` yields
no command but the desired token `"ALL PRIVILEGES"` yields a GRANT, so the
two spellings are not interchangeable on the desired side. -/
theorem permission_all_privileges_counterexample :
    permission "bob" ["ALL"] "localhost" "*" "*" true true noConn
        [("*.*", ⟨["ALL PRIVILEGES"]⟩)] = Except.ok [] ∧
    permission "bob" ["ALL PRIVILEGES"] "localhost" "*" "*" true true noConn
        [("*.*", ⟨["ALL PRIVILEGES"]⟩)] ≠
      permission "bob" ["ALL"] "localhost" "*" "*" true true noConn
        [("*.*", ⟨["ALL PRIVILEGES"]⟩)] := by
  refine ⟨rfl, ?_⟩
  intro h
  rw [show permission "bob" ["ALL PRIVILEGES"] "localhost" "*" "*" true true noConn
        [("*.*", ⟨["ALL PRIVILEGES"]⟩)] =
      Except.ok
        [make_execute_mysql_command
          "GRANT ALL PRIVILEGES ON *.* TO \"bob\"@\"localhost\" " noConn,
        make_execute_mysql_command "FLUSH PRIVILEGES" noConn] from rfl,
    show permission "bob" ["ALL"] "localhost" "*" "*" true true noConn
        [("*.*", ⟨["ALL PRIVILEGES"]⟩)] = Except.ok [] from rfl] at h
  simp at h

/-- C2 (amended): normalization is one-sided.  A host-reported
`"ALL PRIVILEGES"` is normalized to `"ALL"` before comparison, so a
snapshot entry containing `"ALL PRIVILEGES"` satisfies a desired `"ALL"`
(no GRANT is emitted); but the desired token `"ALL PRIVILEGES"` itself is
never normalized and is never satisfied by any snapshot entry, so with
`present=true` it always emits a GRANT. -/
theorem permission_normalization_one_sided {g : GrantSnapshot}
    {entry : GrantEntry} (u uh db tbl : String) (flush : Bool) (conn : Conn)
    (hl : lookupGrant g (quoteIdent db ++ "." ++ quoteIdent tbl) = some entry) :
    ("ALL PRIVILEGES" ∈ entry.permissions →
      permission u ["ALL"] uh db tbl true flush conn g = Except.ok []) ∧
    permission u ["ALL PRIVILEGES"] uh db tbl true flush conn g =
      Except.ok
        (make_execute_mysql_command
            (actionCommand "GRANT" "TO" ["ALL PRIVILEGES"]
              (quoteIdent db) (quoteIdent tbl) u uh) conn
          :: flushTail flush conn) := by
  constructor
  · intro hall
    rw [permission_eq_of_lookup u ["ALL"] uh db tbl true flush conn hl]
    have hs : satisfied ["ALL"] entry = true := by
      simp only [satisfied, List.all_eq_true, decide_eq_true_eq]
      intro p hp
      rw [List.mem_singleton] at hp
      subst hp
      exact List.mem_map.mpr ⟨"ALL PRIVILEGES", hall, rfl⟩
    simp [hs]
  · rw [permission_eq_of_lookup u ["ALL PRIVILEGES"] uh db tbl true flush conn hl]
    have hs : satisfied ["ALL PRIVILEGES"] entry = false := by
      rw [Bool.eq_false_iff]
      intro h
      simp only [satisfied, List.all_eq_true, decide_eq_true_eq] at h
      have := h "ALL PRIVILEGES" (by simp)
      rcases List.mem_map.mp this with ⟨q, _, hq⟩
      by_cases hq96 : q = "ALL PRIVILEGES"
      · rw [hq96] at hq
        simp [normPerm] at hq
      · rw [normPerm_eq_self hq96] at hq
        exact hq96 hq
    simp [hs]

/-- C3: when the computed key exists in the snapshot, `permission` follows
the asymmetric decision table: exactly one GRANT of the full desired token
list (plus the flush tail) iff `present=true` and at least one desired
token is missing from the normalized existing set; exactly one REVOKE of
the desired list iff `present=false` and every desired token is present;
otherwise no GRANT/REVOKE command at all. -/
theorem permission_decision_table {g : GrantSnapshot} {entry : GrantEntry}
    (u : String) (perms : List String) (uh db tbl : String)
    (present flush : Bool) (conn : Conn)
    (hl : lookupGrant g (quoteIdent db ++ "." ++ quoteIdent tbl) = some entry) :
    permission u perms uh db tbl present flush conn g =
      Except.ok
        (if present = true ∧ ¬ (∀ p ∈ perms, p ∈ entry.permissions.map normPerm) then
          make_execute_mysql_command
            (actionCommand "GRANT" "TO" perms (quoteIdent db) (quoteIdent tbl) u uh) conn
            :: flushTail flush conn
        else if present = false ∧ (∀ p ∈ perms, p ∈ entry.permissions.map normPerm) then
          make_execute_mysql_command
            (actionCommand "REVOKE" "FROM" perms (quoteIdent db) (quoteIdent tbl) u uh) conn
            :: flushTail flush conn
        else []) := by
  rw [permission_eq_of_lookup u perms uh db tbl present flush conn hl]
  by_cases hsat : ∀ p ∈ perms, p ∈ entry.permissions.map normPerm
  · have hs : satisfied perms entry = true := by
      simp only [satisfied, List.all_eq_true, decide_eq_true_eq]
      exact hsat
    cases present
    · rw [if_neg (by simp [hs]), if_pos (by simp [hs]),
        if_neg (by simp), if_pos ⟨rfl, hsat⟩]
    · rw [if_neg (by simp [hs]), if_neg (by simp [hs]),
        if_neg (fun h => h.2 hsat), if_neg (by simp)]
  · have hs : satisfied perms entry = false := by
      rw [Bool.eq_false_iff]
      intro h
      exact hsat (by simpa [satisfied, List.all_eq_true] using h)
    cases present
    · rw [if_neg (by simp [hs]), if_neg (by simp [hs]),
        if_neg (by simp), if_neg (fun h => hsat h.2)]
    · rw [if_pos (by simp [hs]), if_pos ⟨rfl, hsat⟩]

/-- Witness for C3 at the spec §8 scenario: desired `SELECT, INSERT`,
existing `SELECT` on scope `db`.`*`, `present=true`, `flush=true`:
one additive GRANT of both tokens, then FLUSH PRIVILEGES. -/
theorem permission_decision_table_witness :
    permission "bob" ["SELECT", "INSERT"] "localhost" "db" "*" true true noConn
        [("`db`.*", ⟨["SELECT"]⟩)] =
      Except.ok
        [make_execute_mysql_command
          "GRANT SELECT, INSERT ON \\`db\\`.* TO \"bob\"@\"localhost\" " noConn,
        make_execute_mysql_command "FLUSH PRIVILEGES" noConn] := by
  have h := @permission_decision_table [("`db`.*", ⟨["SELECT"]⟩)] ⟨["SELECT"]⟩
    "bob" ["SELECT", "INSERT"] "localhost" "db" "*" true true noConn rfl
  exact h.trans (by rfl)



/-- Witness for C2 (amended) at the global scope with host-reported
`ALL PRIVILEGES`: desired `ALL` is a no-op, desired `ALL PRIVILEGES`
re-grants. -/
theorem permission_normalization_one_sided_witness :
    permission "bob" ["ALL"] "localhost" "*" "*" true true noConn
        [("*.*", ⟨["ALL PRIVILEGES"]⟩)] = Except.ok [] ∧
    permission "bob" ["ALL PRIVILEGES"] "localhost" "*" "*" true true noConn
        [("*.*", ⟨["ALL PRIVILEGES"]⟩)] =
      Except.ok
        [make_execute_mysql_command
          "GRANT ALL PRIVILEGES ON *.* TO \"bob\"@\"localhost\" " noConn,
        make_execute_mysql_command "FLUSH PRIVILEGES" noConn] := by
  have h := @permission_normalization_one_sided
    [("*.*", ⟨["ALL PRIVILEGES"]⟩)] ⟨["ALL PRIVILEGES"]⟩
    "bob" "localhost" "*" "*" true noConn rfl
  exact ⟨h.1 (by simp), h.2.trans (by rfl)⟩

theorem flush_placement_fired (conn : Conn) (flush : Bool) (c : MysqlCommand)
    (hc : c ≠ make_execute_mysql_command "FLUSH PRIVILEGES" conn) :
    (make_execute_mysql_command "FLUSH PRIVILEGES" conn ∈ c :: flushTail flush conn ↔
      flush = true) ∧
    (make_execute_mysql_command "FLUSH PRIVILEGES" conn ∈ c :: flushTail flush conn →
      ∃ d, d ≠ make_execute_mysql_command "FLUSH PRIVILEGES" conn ∧
        c :: flushTail flush conn =
          [d, make_execute_mysql_command "FLUSH PRIVILEGES" conn]) := by
  cases flush
  · constructor
    · simp only [flushTail, if_neg (by simp : ¬(false = true)), List.mem_singleton]
      constructor
      · intro h
        exact absurd h.symm hc
      · intro h
        cases h
    · intro h
      simp only [flushTail, if_neg (by simp : ¬(false = true)), List.mem_singleton] at h
      exact absurd h.symm hc
  · constructor
    · simp [flushTail]
    · intro _
      refine ⟨c, hc, ?_⟩
      simp [flushTail]

/-- C5: in the command sequence yielded by a successful `permission` run,
`FLUSH PRIVILEGES` appears iff `flush=true` and a GRANT/REVOKE action
fired; when it appears it immediately follows that GRANT/REVOKE command
and is the last element; when no action fires nothing is yielded at all,
whatever `flush` is. -/
theorem permission_flush_placement (u : String) (perms : List String)
    (uh db tbl : String) (present flush : Bool) (conn : Conn)
    (g : GrantSnapshot) (out : List MysqlCommand)
    (hok : permission u perms uh db tbl present flush conn g = Except.ok out) :
    (make_execute_mysql_command "FLUSH PRIVILEGES" conn ∈ out ↔
      (flush = true ∧ actionFires perms db tbl present g = true)) ∧
    (make_execute_mysql_command "FLUSH PRIVILEGES" conn ∈ out →
      ∃ c, c ≠ make_execute_mysql_command "FLUSH PRIVILEGES" conn ∧
        out = [c, make_execute_mysql_command "FLUSH PRIVILEGES" conn]) ∧
    (actionFires perms db tbl present g = false → out = []) := by
  obtain ⟨entry, hl⟩ := lookup_of_permission_ok hok
  rw [permission_eq_of_lookup u perms uh db tbl present flush conn hl] at hok
  have hgne : make_execute_mysql_command
      (actionCommand "GRANT" "TO" perms (quoteIdent db) (quoteIdent tbl) u uh) conn ≠
      make_execute_mysql_command "FLUSH PRIVILEGES" conn := by
    intro h
    exact actionCommand_ne_flush (Or.inl rfl) "TO" perms (quoteIdent db) (quoteIdent tbl)
      u uh (congrArg MysqlCommand.sql h)
  have hrne : make_execute_mysql_command
      (actionCommand "REVOKE" "FROM" perms (quoteIdent db) (quoteIdent tbl) u uh) conn ≠
      make_execute_mysql_command "FLUSH PRIVILEGES" conn := by
    intro h
    exact actionCommand_ne_flush (Or.inr rfl) "FROM" perms (quoteIdent db) (quoteIdent tbl)
      u uh (congrArg MysqlCommand.sql h)
  have hfire : actionFires perms db tbl present g =
      ((!satisfied perms entry && present) || (satisfied perms entry && !present)) := by
    simp [actionFires, hl]
  have hout : (if !satisfied perms entry && present then
        make_execute_mysql_command
          (actionCommand "GRANT" "TO" perms (quoteIdent db) (quoteIdent tbl) u uh) conn
          :: flushTail flush conn
      else if satisfied perms entry && !present then
        make_execute_mysql_command
          (actionCommand "REVOKE" "FROM" perms (quoteIdent db) (quoteIdent tbl) u uh) conn
          :: flushTail flush conn
      else []) = out := by
    injection hok
  cases hsat : satisfied perms entry <;> rw [hsat] at hout <;> cases present
  · rw [if_neg (by simp), if_neg (by simp)] at hout
    subst hout
    have hfv : actionFires perms db tbl false g = false := by rw [hfire, hsat]; rfl
    refine ⟨?_, ?_, ?_⟩
    · rw [hfv]
      simp
    · intro h
      exact absurd h (List.not_mem_nil _)
    · intro _
      rfl
  · rw [if_pos (by simp)] at hout
    subst hout
    have hfv : actionFires perms db tbl true g = true := by rw [hfire, hsat]; rfl
    refine ⟨?_, ?_, ?_⟩
    · constructor
      · intro h
        exact ⟨((flush_placement_fired conn flush _ hgne).1).mp h, hfv⟩
      · intro h
        exact ((flush_placement_fired conn flush _ hgne).1).mpr h.1
    · exact (flush_placement_fired conn flush _ hgne).2
    · rw [hfv]
      intro h
      exact Bool.noConfusion h
  · rw [if_neg (by simp), if_pos (by simp)] at hout
    subst hout
    have hfv : actionFires perms db tbl false g = true := by rw [hfire, hsat]; rfl
    refine ⟨?_, ?_, ?_⟩
    · constructor
      · intro h
        exact ⟨((flush_placement_fired conn flush _ hrne).1).mp h, hfv⟩
      · intro h
        exact ((flush_placement_fired conn flush _ hrne).1).mpr h.1
    · exact (flush_placement_fired conn flush _ hrne).2
    · rw [hfv]
      intro h
      exact Bool.noConfusion h
  · rw [if_neg (by simp), if_neg (by simp)] at hout
    subst hout
    have hfv : actionFires perms db tbl true g = false := by rw [hfire, hsat]; rfl
    refine ⟨?_, ?_, ?_⟩
    · rw [hfv]
      simp
    · intro h
      exact absurd h (List.not_mem_nil _)
    · intro _
      rfl

/-- Witness for C5 at the spec §8 REVOKE scenario: desired `SELECT`,
existing `SELECT, INSERT`, `present=false`, `flush=true`: one REVOKE then
FLUSH PRIVILEGES as the final element. -/
theorem permission_flush_placement_witness :
    (make_execute_mysql_command "FLUSH PRIVILEGES" noConn ∈
        [make_execute_mysql_command
          "REVOKE SELECT ON \\`db\\`.* FROM \"bob\"@\"localhost\" " noConn,
        make_execute_mysql_command "FLUSH PRIVILEGES" noConn] ↔
      (true = true ∧
        actionFires ["SELECT"] "db" "*" false
          [("`db`.*", ⟨["SELECT", "INSERT"]⟩)] = true)) ∧
    (make_execute_mysql_command "FLUSH PRIVILEGES" noConn ∈
        [make_execute_mysql_command
          "REVOKE SELECT ON \\`db\\`.* FROM \"bob\"@\"localhost\" " noConn,
        make_execute_mysql_command "FLUSH PRIVILEGES" noConn] →
      ∃ c, c ≠ make_execute_mysql_command "FLUSH PRIVILEGES" noConn ∧
        [make_execute_mysql_command
          "REVOKE SELECT ON \\`db\\`.* FROM \"bob\"@\"localhost\" " noConn,
        make_execute_mysql_command "FLUSH PRIVILEGES" noConn] =
          [c, make_execute_mysql_command "FLUSH PRIVILEGES" noConn]) ∧
    (actionFires ["SELECT"] "db" "*" false
        [("`db`.*", ⟨["SELECT", "INSERT"]⟩)] = false →
      [make_execute_mysql_command
        "REVOKE SELECT ON \\`db\\`.* FROM \"bob\"@\"localhost\" " noConn,
      make_execute_mysql_command "FLUSH PRIVILEGES" noConn] = []) :=
  permission_flush_placement "bob" ["SELECT"] "localhost" "db" "*" false true noConn
    [("`db`.*", ⟨["SELECT", "INSERT"]⟩)] _ rfl

/-- C6: `database(D, present=false)` yields exactly one DROP DATABASE iff D
is in the existing set and nothing otherwise; it never yields a CREATE and
never delegates a permission grant, whatever `user`/`user_permissions`
arguments are supplied. -/
theorem database_absent_drop (name : String) (collate charset : Option String)
    (u : Option String) (uh : String) (UP : List String) (conn : Conn)
    (dbs : List String) (g : GrantSnapshot) :
    database name false collate charset u uh UP conn dbs g =
      Except.ok
        (if name ∈ dbs then
          [make_execute_mysql_command ("DROP DATABASE " ++ name) conn]
        else []) := by
  by_cases h : name ∈ dbs <;> simp [database, h]

/-- C7: with no `user` argument, `database(D, present=true)` yields exactly
one CREATE DATABASE command — with COLLATE and/or CHARSET appended exactly
when the corresponding argument is truthy — iff D is absent from the
existing set, and zero commands when D already exists. -/
theorem database_create_only_if_absent (name : String)
    (collate charset : Option String) (uh : String) (UP : List String)
    (conn : Conn) (dbs : List String) (g : GrantSnapshot) :
    database name true collate charset none uh UP conn dbs g =
      Except.ok
        (if name ∈ dbs then []
        else
          [make_execute_mysql_command
            (String.intercalate " "
              (["CREATE DATABASE " ++ name]
                ++ (if pyTruthy collate then ["COLLATE " ++ collate.getD ""] else [])
                ++ (if pyTruthy charset then ["CHARSET " ++ charset.getD ""] else [])))
            conn]) := by
  by_cases h : name ∈ dbs <;> simp [database, pyTruthy, h]

/-- C8: `user(name, present=false)` yields exactly one
`DROP USER "name"@"hostname"` command iff `name@hostname` is among the
current identities, and zero commands otherwise; it stops there, yielding
no permission command even when a `permissions` argument is supplied. -/
theorem user_absent_drop (name uh : String) (pw : Option String)
    (perms : List String) (conn : Conn) (users : List String)
    (g : GrantSnapshot) :
    user name false uh pw perms conn users g =
      Except.ok
        (if (name ++ "@" ++ uh) ∈ users then
          [make_execute_mysql_command
            ("DROP USER \"" ++ name ++ "\"@\"" ++ uh ++ "\"") conn]
        else []) := by
  by_cases h : (name ++ "@" ++ uh) ∈ users <;> simp [user, h]

/-- C9: the password is applied only at creation.  With no permissions
argument, `user(name, present=true)` yields exactly one CREATE USER
command — with `IDENTIFIED BY` appended exactly when a password is
supplied — iff the identity is absent, and zero commands when it exists;
and when the identity exists the whole output is independent of the
password argument, so no yielded command can reference it. -/
theorem user_password_only_at_creation (name uh : String) (pw : Option String)
    (conn : Conn) (users : List String) (g : GrantSnapshot) :
    (user name true uh pw [] conn users g =
      Except.ok
        (if (name ++ "@" ++ uh) ∈ users then []
        else
          [make_execute_mysql_command
            (String.intercalate " "
              (["CREATE USER \"" ++ name ++ "\"@\"" ++ uh ++ "\""]
                ++ (if pyTruthy pw then
                      ["IDENTIFIED BY \"" ++ pw.getD "" ++ "\""]
                    else [])))
            conn])) ∧
    (∀ (pw' : Option String) (perms : List String),
      (name ++ "@" ++ uh) ∈ users →
      user name true uh pw perms conn users g =
        user name true uh pw' perms conn users g) := by
  constructor
  · by_cases h : (name ++ "@" ++ uh) ∈ users <;> simp [user, h]
  · intro pw' perms hmem
    simp [user, hmem]

/-- Witness for C9: creating `bob@localhost` with a password appends
IDENTIFIED BY; on an existing identity the password argument does not
change the output. -/
theorem user_password_only_at_creation_witness :
    (user "bob" true "localhost" (some "secret") [] noConn [] [] =
      Except.ok
        [make_execute_mysql_command
          "CREATE USER \"bob\"@\"localhost\" IDENTIFIED BY \"secret\"" noConn]) ∧
    (user "bob" true "localhost" (some "secret") ["SELECT"] noConn
        ["bob@localhost"] [("*.*", ⟨["SELECT"]⟩)] =
      user "bob" true "localhost" none ["SELECT"] noConn
        ["bob@localhost"] [("*.*", ⟨["SELECT"]⟩)]) := by
  constructor
  · exact ((user_password_only_at_creation "bob" "localhost" (some "secret")
      noConn [] []).1).trans (by rfl)
  · exact (user_password_only_at_creation "bob" "localhost" (some "secret")
      noConn ["bob@localhost"] [("*.*", ⟨["SELECT"]⟩)]).2 none ["SELECT"]
      (List.mem_cons_self _ _)

/-- C10: the commands of `database`'s delegated permission call are
invariant under the four MySQL connection arguments, because `database`
does not forward them (the delegated call runs with `noConn`); dropping
the at-most-one direct CREATE command leaves equal outputs for any two
connections seeing the same snapshots.  By contrast `user`'s delegation
forwards the connection: on an existing identity its output IS the
`permission` call at the same `conn`. -/
theorem database_delegation_conn_invariant :
    (∀ (conn conn' : Conn) (name : String) (collate charset : Option String)
        (u : Option String) (uh : String) (UP : List String)
        (dbs : List String) (g : GrantSnapshot),
      Except.map (fun l => l.drop (if name ∈ dbs then 0 else 1))
          (database name true collate charset u uh UP conn dbs g) =
        Except.map (fun l => l.drop (if name ∈ dbs then 0 else 1))
          (database name true collate charset u uh UP conn' dbs g)) ∧
    (∀ (conn : Conn) (name uh : String) (pw : Option String)
        (perms : List String) (users : List String) (g : GrantSnapshot),
      (name ++ "@" ++ uh) ∈ users → perms ≠ [] →
      user name true uh pw perms conn users g =
        permission name perms "localhost" "*" "*" true true conn g) := by
  constructor
  · intro conn conn' name collate charset u uh UP dbs g
    by_cases hm : name ∈ dbs
    · have h : database name true collate charset u uh UP conn dbs g
          = database name true collate charset u uh UP conn' dbs g := by
        simp [database, hm]
      rw [h]
    · cases hcb : (pyTruthy u && !UP.isEmpty)
      · simp [database, hm, hcb, Except.map]
      · cases hd : permission (u.getD "") UP uh name "*" true true noConn g
        · simp [database, hm, hcb, hd, Except.map]
        · simp [database, hm, hcb, hd, Except.map]
  · intro conn name uh pw perms users g hmem hne
    cases hd : permission name perms "localhost" "*" "*" true true conn g
    · simp [user, hmem, isEmpty_false_of_ne hne, hd]
    · simp [user, hmem, isEmpty_false_of_ne hne, hd]

/-- Witness for C10: two different connections produce the same delegated
GRANT/FLUSH for the database operation, and `user`'s delegation on an
existing identity equals the forwarded `permission` call. -/
theorem database_delegation_conn_invariant_witness :
    Except.map (fun (l : List MysqlCommand) =>
        l.drop (if "db1" ∈ (["db0"] : List String) then 0 else 1))
      (database "db1" true none none (some "bob") "localhost" ["SELECT"]
        { mysql_user := some "root", mysql_password := some "pw1",
          mysql_host := some "h1", mysql_port := some "3306" }
        ["db0"] [("`db1`.*", ⟨[]⟩)]) =
    Except.map (fun (l : List MysqlCommand) =>
        l.drop (if "db1" ∈ (["db0"] : List String) then 0 else 1))
      (database "db1" true none none (some "bob") "localhost" ["SELECT"]
        noConn ["db0"] [("`db1`.*", ⟨[]⟩)]) ∧
    user "bob" true "localhost" none ["SELECT"]
        { mysql_user := some "root", mysql_password := some "pw1",
          mysql_host := some "h1", mysql_port := some "3306" }
        ["bob@localhost"] [("*.*", ⟨[]⟩)] =
      permission "bob" ["SELECT"] "localhost" "*" "*" true true
        { mysql_user := some "root", mysql_password := some "pw1",
          mysql_host := some "h1", mysql_port := some "3306" }
        [("*.*", ⟨[]⟩)] := by
  constructor
  · exact database_delegation_conn_invariant.1
      { mysql_user := some "root", mysql_password := some "pw1",
        mysql_host := some "h1", mysql_port := some "3306" }
      noConn "db1" none none (some "bob") "localhost" ["SELECT"]
      ["db0"] [("`db1`.*", ⟨[]⟩)]
  · exact database_delegation_conn_invariant.2
      { mysql_user := some "root", mysql_password := some "pw1",
        mysql_host := some "h1", mysql_port := some "3306" }
      "bob" "localhost" none ["SELECT"] ["bob@localhost"] [("*.*", ⟨[]⟩)]
      (List.mem_cons_self _ _) (by decide)

/-- C4 (amended): each state-bearing operation, re-run with the same
arguments against the snapshot updated to reflect its first successful
run, yields zero commands — provided the desired permission list is
nonempty (for `permission` itself) and contains no literal
`"ALL PRIVILEGES"` token, which the one-sided normalization can never
match (see the counterexample). -/
theorem reconciliation_idempotent :
    (∀ (u : String) (perms : List String) (uh db tbl : String)
        (present flush : Bool) (conn : Conn) (g : GrantSnapshot)
        (out : List MysqlCommand),
      perms ≠ [] → (∀ p ∈ perms, p ≠ "ALL PRIVILEGES") →
      permission u perms uh db tbl present flush conn g = Except.ok out →
      permission u perms uh db tbl present flush conn
        (applyPermission perms db tbl present g) = Except.ok []) ∧
    (∀ (name : String) (present : Bool) (uh : String) (pw : Option String)
        (perms : List String) (conn : Conn) (users : List String)
        (g : GrantSnapshot) (out : List MysqlCommand),
      (∀ p ∈ perms, p ≠ "ALL PRIVILEGES") →
      user name present uh pw perms conn users g = Except.ok out →
      user name present uh pw perms conn
        (applyUser name present uh perms users g).1
        (applyUser name present uh perms users g).2 = Except.ok []) ∧
    (∀ (name : String) (present : Bool) (collate charset : Option String)
        (u : Option String) (uh : String) (UP : List String) (conn : Conn)
        (dbs : List String) (g : GrantSnapshot) (out : List MysqlCommand),
      (∀ p ∈ UP, p ≠ "ALL PRIVILEGES") →
      database name present collate charset u uh UP conn dbs g = Except.ok out →
      database name present collate charset u uh UP conn
        (applyDatabase name present u UP dbs g).1
        (applyDatabase name present u UP dbs g).2 = Except.ok []) :=
  ⟨fun u perms uh db tbl present flush conn g out hne hp hok =>
      permission_idem u perms uh db tbl present flush conn g out hne hp hok,
    fun name present uh pw perms conn users g out hp hok =>
      user_idem name present uh pw perms conn users g out hp hok,
    fun name present collate charset u uh UP conn dbs g out hp hok =>
      database_idem name present collate charset u uh UP conn dbs g out hp hok⟩

/-- C4 counterexample: with desired token `ALL PRIVILEGES` — which the
one-sided normalization can never match — the first `permission` run
emits a GRANT, and the run repeated against the updated snapshot emits it
again instead of yielding zero commands. -/
theorem reconciliation_idempotent_counterexample :
    permission "bob" ["ALL PRIVILEGES"] "localhost" "*" "*" true true noConn
        [("*.*", ⟨["SELECT"]⟩)] =
      Except.ok
        [make_execute_mysql_command
          "GRANT ALL PRIVILEGES ON *.* TO \"bob\"@\"localhost\" " noConn,
        make_execute_mysql_command "FLUSH PRIVILEGES" noConn] ∧
    permission "bob" ["ALL PRIVILEGES"] "localhost" "*" "*" true true noConn
        (applyPermission ["ALL PRIVILEGES"] "*" "*" true
          [("*.*", ⟨["SELECT"]⟩)]) ≠ Except.ok [] := by
  refine ⟨rfl, ?_⟩
  intro h
  rw [show permission "bob" ["ALL PRIVILEGES"] "localhost" "*" "*" true true noConn
        (applyPermission ["ALL PRIVILEGES"] "*" "*" true
          [("*.*", ⟨["SELECT"]⟩)]) =
      Except.ok
        [make_execute_mysql_command
          "GRANT ALL PRIVILEGES ON *.* TO \"bob\"@\"localhost\" " noConn,
        make_execute_mysql_command "FLUSH PRIVILEGES" noConn] from rfl] at h
  simp at h

/-- Witness for C4 (amended): second runs of `permission`, `user` and
`database` (with its delegated grant) against the updated snapshots all
yield zero commands. -/
theorem reconciliation_idempotent_witness :
    permission "bob" ["SELECT"] "localhost" "*" "*" true true noConn
        (applyPermission ["SELECT"] "*" "*" true [("*.*", ⟨[]⟩)]) =
      Except.ok [] ∧
    user "bob" true "localhost" none ["SELECT"] noConn
        (applyUser "bob" true "localhost" ["SELECT"] [] [("*.*", ⟨[]⟩)]).1
        (applyUser "bob" true "localhost" ["SELECT"] [] [("*.*", ⟨[]⟩)]).2 =
      Except.ok [] ∧
    database "db1" true none none (some "bob") "localhost" ["SELECT"] noConn
        (applyDatabase "db1" true (some "bob") ["SELECT"] []
          [("`db1`.*", ⟨[]⟩)]).1
        (applyDatabase "db1" true (some "bob") ["SELECT"] []
          [("`db1`.*", ⟨[]⟩)]).2 = Except.ok [] := by
  refine ⟨?_, ?_, ?_⟩
  · exact reconciliation_idempotent.1 "bob" ["SELECT"] "localhost" "*" "*" true true
      noConn [("*.*", ⟨[]⟩)] _ (by decide) (by decide) rfl
  · exact (reconciliation_idempotent.2).1 "bob" true "localhost" none ["SELECT"]
      noConn [] [("*.*", ⟨[]⟩)] _ (by decide) rfl
  · exact (reconciliation_idempotent.2).2 "db1" true none none (some "bob")
      "localhost" ["SELECT"] noConn [] [("`db1`.*", ⟨[]⟩)] _ (by decide) rfl

end PyinfraMysql
